import Mathlib

/-!
# Verification of the receiving-and-shipping reporting tool

Shallow embedding of `src/app.py` (a pandas/Streamlit manufacturing-operations
reporting tool).  Numeric cell values are modelled over `ℚ`: the Python code
computes with IEEE floats, but every claim under study is about the exact
arithmetic the source expresses, so rational arithmetic is the faithful
idealisation.  Korean column names from the source are kept in string literals
and recalled in doc comments; Lean identifiers use romanised names.
-/

/-- A spreadsheet / dataframe cell value as `safe_num` can receive it:
a NaN-like value (`None`, `float('nan')`, pandas `NA` — anything with
`pd.isna(x)` true), a Python `int`, a Python `float` (idealised as `ℚ`),
a string, or any other object carried by its `str(x)` representation. -/
inductive Value where
  | nan : Value
  | int (n : ℤ) : Value
  | float (q : ℚ) : Value
  | str (s : String) : Value
  | obj (reprStr : String) : Value
deriving Repr, DecidableEq

/-- Characters `'0'`–`'9'`. -/
def isDigitChar (c : Char) : Bool :=
  decide ('0' ≤ c ∧ c ≤ '9')

/-- Accumulate a digit list into a natural number (most significant first). -/
def digitsToNat (l : List Char) : ℕ :=
  l.foldl (fun a c => a * 10 + (c.toNat - Char.toNat '0')) 0

/-- Split a character list at the first `'e'`/`'E'` (exponent marker). -/
def splitExpMark : List Char → List Char × Option (List Char)
  | [] => ([], none)
  | c :: rest =>
    if c = 'e' ∨ c = 'E' then ([], some rest)
    else
      let (m, e) := splitExpMark rest
      (c :: m, e)

/-- Split a character list at the first `'.'`. -/
def splitDot : List Char → List Char × Option (List Char)
  | [] => ([], none)
  | c :: rest =>
    if c = '.' then ([], some rest)
    else
      let (i, f) := splitDot rest
      (c :: i, f)

/-- Strip one optional leading sign, returning the sign as `1` or `-1`. -/
def stripSign : List Char → ℤ × List Char
  | '+' :: rest => (1, rest)
  | '-' :: rest => (-1, rest)
  | l => (1, l)

/-- ASCII whitespace, the common case of what `float(s)` strips. -/
def isSpaceChar (c : Char) : Bool :=
  c == ' ' || c == '\t' || c == '\n' || c == '\r'

/-- Strip leading and trailing whitespace from a character list. -/
def trimSpaces (l : List Char) : List Char :=
  ((l.dropWhile isSpaceChar).reverse.dropWhile isSpaceChar).reverse

/-- Embeds `s.replace(",", "")`: with a one-character pattern and empty replacement
this deletes every comma. -/
def removeCommas (s : String) : String :=
  ⟨s.toList.filter (fun c => !(c == ','))⟩

/-- Embeds `s.startswith(pat)` over character lists. -/
def startsWithK : List Char → List Char → Bool
  | _, [] => true
  | [], _ :: _ => false
  | c :: cs, p :: ps => c == p && startsWithK cs ps

/-- Python `s.startswith(pat)` / pandas `.str.startswith(pat)`. -/
def strStarts (s pat : String) : Bool :=
  startsWithK s.toList pat.toList

/-- Syntactic part of the Python builtin `float(s)` on finite decimal
literals: leading/trailing whitespace, an optional sign, a digit string with
an optional fractional part (at least one digit overall), and an optional
exponent.  Yields `(sign, mantissa digits, fraction length, exponent)`, or
`none` where Python raises `ValueError`.  Non-finite literals (`inf`, `nan`)
and digit-group underscores are outside the rational model and not
accepted. -/
def pyFloatParse (s : String) : Option (ℤ × ℕ × ℕ × ℤ) :=
  let t := trimSpaces s.toList
  let (sign, t) := stripSign t
  let (mant, expPart) := splitExpMark t
  let (ip, fpOpt) := splitDot mant
  let fp := fpOpt.getD []
  if ip.all isDigitChar ∧ fp.all isDigitChar ∧ (ip ≠ [] ∨ fp ≠ []) then
    match expPart with
    | none => some (sign, digitsToNat (ip ++ fp), fp.length, 0)
    | some e =>
      let (esign, ed) := stripSign e
      if ed ≠ [] ∧ ed.all isDigitChar then
        some (sign, digitsToNat (ip ++ fp), fp.length, esign * (digitsToNat ed : ℤ))
      else none
  else none

/-- The value of the Python builtin `float(s)`, as a rational:
`sign × mantissa / 10^fracLen × 10^exponent`. -/
def pyFloat? (s : String) : Option ℚ :=
  (pyFloatParse s).map
    (fun q => (q.1 : ℚ) * ((q.2.1 : ℚ) / (10 : ℚ) ^ q.2.2.1) * (10 : ℚ) ^ q.2.2.2)

/-- Embeds `safe_num` (src/app.py:276-288): coerce any cell value to a number.
NaN-like values give `0`; `int`/`float` give their value; anything else goes
through `float(str(x).replace(",", ""))`, and `0.0` on parse failure. -/
def safe_num : Value → ℚ
  | .nan => 0
  | .int n => (n : ℚ)
  | .float q => q
  | .str s => ((pyFloat? (removeCommas s)).getD 0)
  | .obj s => ((pyFloat? (removeCommas s)).getD 0)

/-- Embeds `excel_col_to_index` (src/app.py:250-258): spreadsheet column letters to a
0-based index.  Characters outside `A`–`Z` (after upcasing) are skipped; the
running value is `result * 26 + (ch - 'A' + 1)`, and the final `- 1` makes the
result 0-based (so an empty or letterless string yields `-1`). -/
def excel_col_to_index (colLetter : String) : ℤ :=
  ((colLetter.toList.map Char.toUpper).foldl
    (fun result ch =>
      if 'A' ≤ ch ∧ ch ≤ 'Z' then
        result * 26 + ((ch.toNat : ℤ) - (Char.toNat 'A' : ℤ) + 1)
      else result)
    0) - 1

/-- The `for name in preferred_names: if name in df.columns: return name` loop
inside `pick_col`. -/
def firstPreferred (cols : List String) : List String → Option String
  | [] => none
  | name :: rest => if name ∈ cols then some name else firstPreferred cols rest

/-- Embeds `pick_col` (src/app.py:261-273): resolve a dataframe column by preferred
header names first, falling back to the spreadsheet-letter position, else
`None`.  The dataframe is represented by its column list. -/
def pick_col (cols : List String) (letter : String) (preferredNames : List String) :
    Option String :=
  match firstPreferred cols preferredNames with
  | some name => some name
  | none =>
    let idx := excel_col_to_index letter
    if h : 0 ≤ idx ∧ idx < (cols.length : ℤ) then
      some (cols.get ⟨idx.toNat, by omega⟩)
    else none

/-! ## Label-tab core-weight estimator (src/app.py:3449-3453 and 3486-3488) -/

/-- Python's `round` to an integer: round-half-to-even (banker's rounding). -/
def roundHalfEven (x : ℚ) : ℤ :=
  let f := ⌊x⌋
  let r := x - (f : ℚ)
  if r < 1 / 2 then f
  else if 1 / 2 < r then f + 1
  else if f % 2 = 0 then f else f + 1

/-- Python's `round(x, 2)`: round to two decimal places. -/
def pyRound2 (x : ℚ) : ℚ :=
  (roundHalfEven (100 * x) : ℚ) / 100

/-- Embeds `est_val_preview` (src/app.py:3449-3453): the preview estimate of the label
core weight.  Initialised to `0.0`; only when outer diameter, inner diameter
and height are all strictly positive is
`3.14 * h * ((od ** 2 - id ** 2) / 4.0) * 0.78` computed and rounded to two
decimals. -/
def est_val_preview (od idm h : ℚ) : ℚ :=
  if 0 < od ∧ 0 < idm ∧ 0 < h then
    pyRound2 (3.14 * h * ((od ^ 2 - idm ^ 2) / 4) * 0.78)
  else 0

/-- Embeds `est_val` (src/app.py:3486-3488): the same formula in the save branch,
which only runs after the `new_od <= 0 or new_id <= 0 or new_h <= 0` guard has
rejected non-positive inputs. -/
def est_val_save (od idm h : ℚ) : ℚ :=
  pyRound2 (3.14 * h * ((od ^ 2 - idm ^ 2) / 4) * 0.78)

/-! ## Part-to-order search: date-window escalation (src/app.py:1788-1874)

A matched sales-order row enters the escalation only through its due date, so
a row is modelled by that date, an integer day number; `timedelta(days=n)` is
`+ n` and pandas `Series.between` is inclusive at both ends.  The display-only
descending sort applied to the wider windows reorders rows inside the chosen
window and is not modelled. -/

/-- The fixed window sequence: today→+30d, today→+365d, then past 90/180/365
days up to today. -/
def dateWindows (today : ℤ) : List (ℤ × ℤ) :=
  [(today, today + 30), (today, today + 365),
   (today - 90, today), (today - 180, today), (today - 365, today)]

/-- Embeds `Series.between(lo, hi)` on due dates: inclusive on both ends. -/
def betweenFilter (rows : List ℤ) (lo hi : ℤ) : List ℤ :=
  rows.filter (fun d => decide (lo ≤ d ∧ d ≤ hi))

/-- The nested `if not df_1m.empty ... else ...` escalation of the 수주 찾기
tab: each wider window is filtered only after every narrower one came back
empty, and the first non-empty filtered frame becomes `df_show` (else empty). -/
def searchByWindows (today : ℤ) (rows : List ℤ) : List ℤ :=
  let df1m := betweenFilter rows today (today + 30)
  if df1m ≠ [] then df1m
  else
    let df1y := betweenFilter rows today (today + 365)
    if df1y ≠ [] then df1y
    else
      let back3 := betweenFilter rows (today - 90) today
      if back3 ≠ [] then back3
      else
        let back6 := betweenFilter rows (today - 180) today
        if back6 ≠ [] then back6
        else
          let back12 := betweenFilter rows (today - 365) today
          if back12 ≠ [] then back12 else []

/-! ## S3 loaders (src/app.py:37-50, 52-72, 96-109)

Each loader issues one `get_object` call; the call either yields the object
bytes or raises a `ClientError` carrying an error-code string.  A loader
returns its value together with the list of error messages it surfaced via
`st.error`. -/

/-- Outcome of `s3_client.get_object`: the body, or a `ClientError` with its
`e.response["Error"]["Code"]` string. -/
inductive S3Result (α : Type) where
  | ok (body : α) : S3Result α
  | clientError (code : String) : S3Result α

/-- What a loader hands back: its return value plus the user-facing error
messages it emitted. -/
structure LoadOutcome (α : Type) where
  value : α
  errors : List String
deriving Repr, DecidableEq

/-- Embeds `load_file_from_s3` (src/app.py:37-50): returns the Excel bytes, or `None`
on `NoSuchKey`/`404` silently, or `None` after surfacing the error message for
any other `ClientError`.  Bytes are abstracted as an arbitrary type `α`. -/
def load_file_from_s3 {α : Type} (fetch : S3Result α) : LoadOutcome (Option α) :=
  match fetch with
  | .ok body => ⟨some body, []⟩
  | .clientError code =>
    if code = "NoSuchKey" ∨ code = "404" then ⟨none, []⟩
    else ⟨none, ["S3에서 파일을 가져오는 중 오류가 발생했습니다: " ++ code]⟩

/-- Embeds `load_db_from_s3` (src/app.py:96-109): same shape for the SQLite bytes. -/
def load_db_from_s3 {α : Type} (fetch : S3Result α) : LoadOutcome (Option α) :=
  match fetch with
  | .ok body => ⟨some body, []⟩
  | .clientError code =>
    if code = "NoSuchKey" ∨ code = "404" then ⟨none, []⟩
    else ⟨none, ["S3 DB 로딩 오류: " ++ code]⟩

/-- Embeds `load_label_db_from_s3` (src/app.py:52-72): decodes and parses the CSV on
success (`read_csv` abstracted as the parameter `readCsv`), and returns the
empty dataframe — modelled as the empty row list — on `NoSuchKey`/`404`
silently, or after surfacing any other `ClientError`. -/
def load_label_db_from_s3 {β : Type} (readCsv : String → List β)
    (fetch : S3Result String) : LoadOutcome (List β) :=
  match fetch with
  | .ok body => ⟨readCsv body, []⟩
  | .clientError code =>
    if code = "NoSuchKey" ∨ code = "404" then ⟨[], []⟩
    else ⟨[], ["S3에서 라벨 DB를 가져오는 중 오류가 발생했습니다: " ++ code]⟩

/-! ## build_aggregates (src/app.py:584-805)

The two rollups the claims inspect are modelled directly over the raw sheet
rows they consume, with the pandas `groupby(...).sum()` read as the function
from a group key to the sum over the rows of that group (a key with no rows
sums to `0`, which is exactly what the later NaN→0 step produces for a key
missing from the aggregate table). -/

/-- A row of the 재고 (inventory) sheet, reduced to the three columns
`build_aggregates` selects: 작업장 (workstation), 품번 (part number),
실재고수량 (actual stock quantity). -/
structure StockRow where
  workstation : String
  part : String
  qty : ℚ
deriving Repr, DecidableEq

/-- The four designated workstations (src/app.py:792). -/
def erpWorkstations : List String := ["WC501", "WC502", "WC503", "WC504"]

/-- Embeds `df_stock[df_stock["작업장"].isin(["WC501", ...])]` (src/app.py:792). -/
def stockFiltered (rows : List StockRow) : List StockRow :=
  rows.filter (fun r => decide (r.workstation ∈ erpWorkstations))

/-- ERP재고 for a part: `groupby("품번")["실재고수량"].sum()` over the
workstation-filtered inventory rows (src/app.py:794-798). -/
def erpStockOf (rows : List StockRow) (part : String) : ℚ :=
  (((stockFiltered rows).filter (fun r => decide (r.part = part))).map
    (fun r => r.qty)).sum

/-- A row of the 불량 (defect) sheet, reduced to the four columns
`build_aggregates` selects: 지시번호 (work-order number, from 작지번호),
품번 (part, from 투입품번), 불량수량 (defect quantity), 불량유형 (defect
type, already passed through `astype(str)`). -/
structure DefectRow where
  jisi : String
  part : String
  qty : ℚ
  dtype : String
deriving Repr, DecidableEq

/-- Embeds `df_def[df_def["불량유형"].str.startswith("(원)")]` (src/app.py:754). -/
def defectOrigRows (rows : List DefectRow) : List DefectRow :=
  rows.filter (fun r => strStarts r.dtype "(원)")

/-- Embeds `df_def[df_def["불량유형"].str.startswith("(작)")]` (src/app.py:762). -/
def defectProcRows (rows : List DefectRow) : List DefectRow :=
  rows.filter (fun r => strStarts r.dtype "(작)")

/-- The 원불 total for a (work-order, part) pair: `groupby(["지시번호", "품번"])`
`["불량수량"].sum()` over the `(원)`-prefixed rows (src/app.py:755-759). -/
def origDefectOf (rows : List DefectRow) (jisi part : String) : ℚ :=
  (((defectOrigRows rows).filter
    (fun r => decide (r.jisi = jisi ∧ r.part = part))).map (fun r => r.qty)).sum

/-- The 작불 total for a (work-order, part) pair, over the `(작)`-prefixed rows
(src/app.py:763-767). -/
def procDefectOf (rows : List DefectRow) (jisi part : String) : ℚ :=
  (((defectProcRows rows).filter
    (fun r => decide (r.jisi = jisi ∧ r.part = part))).map (fun r => r.qty)).sum

/-! ## recalc_return_expectation (src/app.py:811-917)

The return-tracking frame is a row list; the five aggregate tables attached
by `merge(..., how="left", on=key)` all come out of `groupby` calls, so their
keys are unique and a left merge is a first-match lookup (`List.find?`) that
leaves NaN — here `none`, turned into `0` by the `safe_num` pass over
`num_cols` — where no aggregate row matches.  The legacy fallback that merges
the result table on 수주번호 when it lacks a 지시번호 column (src/app.py:
856-863) is not modelled: the result aggregate built by `build_aggregates`
always carries the 지시번호 key.  One representative user-entered text column
(생산공정) stands in for the carried CSV columns. -/

/-- A user-entered 환입관리 (return-tracking) row: the [수주번호, 지시번호,
품번] key, the per-unit quantity 단위수량 (an arbitrary cell value, coerced by
`safe_num`), and the carried 생산공정 column. -/
structure ReturnRow where
  suju : String
  jisi : String
  part : String
  unitQty : Value
  process : String
deriving Repr, DecidableEq

/-- Two return rows agree on the [수주번호, 지시번호, 품번] key. -/
def sameKey (r s : ReturnRow) : Prop :=
  r.suju = s.suju ∧ r.jisi = s.jisi ∧ r.part = s.part

instance (r s : ReturnRow) : Decidable (sameKey r s) := by
  unfold sameKey; infer_instance

/-- Embeds `df_return.drop_duplicates(subset=["수주번호", "지시번호", "품번"],
keep="last")` (src/app.py:822-824): a row survives iff no later row carries
the same key. -/
def dedupKeepLast : List ReturnRow → List ReturnRow
  | [] => []
  | r :: rest =>
    if rest.any (fun s => decide (sameKey r s)) then dedupKeepLast rest
    else r :: dedupKeepLast rest

/-- A row of the 입고 aggregate `aggs["in"]` (src/app.py:603-606). -/
structure InAggRow where
  suju : String
  jisi : String
  part : String
  erpOut : ℚ
  realIn : ℚ
deriving Repr, DecidableEq

/-- A row of the 작업지시 aggregate `aggs["job"]` (src/app.py:628). -/
structure JobAggRow where
  jisi : String
  orderQty : ℚ
deriving Repr, DecidableEq

/-- A row of the 생산실적 aggregate `aggs["result"]` keyed by 지시번호
(src/app.py:696-716): 생산수량, QC샘플, 기타샘플 sums. -/
structure ResAggRow where
  jisi : String
  prodQty : ℚ
  qcSample : ℚ
  etcSample : ℚ
deriving Repr, DecidableEq

/-- A row of the 불량 aggregate `aggs["defect"]` (src/app.py:770): the outer
merge of the 원불 and 작불 rollups can leave either side NaN (`none`). -/
structure DefAggRow where
  jisi : String
  part : String
  origDef : Option ℚ
  procDef : Option ℚ
deriving Repr, DecidableEq

/-- A row of the 재고 aggregate `aggs["stock"]` (src/app.py:794-798). -/
structure StockAggRow where
  part : String
  erpStockQty : ℚ
deriving Repr, DecidableEq

/-- The five aggregate tables `build_aggregates` hands to the reconciliation
step. -/
structure Aggregates where
  inAgg : List InAggRow
  jobAgg : List JobAggRow
  resAgg : List ResAggRow
  defAgg : List DefAggRow
  stockAgg : List StockAggRow

/-- An output row of `recalc_return_expectation`, holding the columns of the
result frame the claims inspect (예상재고 is `expectedStock`). -/
structure OutRow where
  suju : String
  jisi : String
  part : String
  process : String
  erpOut : ℚ
  realIn : ℚ
  orderQty : ℚ
  prodQty : ℚ
  qcSample : ℚ
  etcSample : ℚ
  unitQty : ℚ
  origDef : ℚ
  procDef : ℚ
  erpStockQty : ℚ
  expectedStock : ℚ
deriving Repr, DecidableEq

/-- The merge-and-compute pipeline applied to one deduplicated return row:
the five left merges (first-match lookups), the `safe_num` NaN→0 pass over
`num_cols`, and the 예상재고 formula (src/app.py:826-906). -/
def computeRow (aggs : Aggregates) (r : ReturnRow) : OutRow :=
  let inM := aggs.inAgg.find?
    (fun a => a.suju == r.suju && a.jisi == r.jisi && a.part == r.part)
  let jobM := aggs.jobAgg.find? (fun a => a.jisi == r.jisi)
  let resM := aggs.resAgg.find? (fun a => a.jisi == r.jisi)
  let defM := aggs.defAgg.find? (fun a => a.jisi == r.jisi && a.part == r.part)
  let stockM := aggs.stockAgg.find? (fun a => a.part == r.part)
  let realIn := (inM.map (fun a => a.realIn)).getD 0
  let prodQty := (resM.map (fun a => a.prodQty)).getD 0
  let qcSample := (resM.map (fun a => a.qcSample)).getD 0
  let etcSample := (resM.map (fun a => a.etcSample)).getD 0
  let unitQty := safe_num r.unitQty
  let origDef := (defM.bind (fun a => a.origDef)).getD 0
  let procDef := (defM.bind (fun a => a.procDef)).getD 0
  { suju := r.suju
    jisi := r.jisi
    part := r.part
    process := r.process
    erpOut := (inM.map (fun a => a.erpOut)).getD 0
    realIn := realIn
    orderQty := (jobM.map (fun a => a.orderQty)).getD 0
    prodQty := prodQty
    qcSample := qcSample
    etcSample := etcSample
    unitQty := unitQty
    origDef := origDef
    procDef := procDef
    erpStockQty := (stockM.map (fun a => a.erpStockQty)).getD 0
    expectedStock :=
      realIn - (prodQty + qcSample + etcSample) * unitQty - origDef - procDef }

/-- Embeds `CSV_COLS` (src/app.py:464-488): the full export column set, in order. -/
def CSV_COLS : List String :=
  ["수주번호", "지시번호", "생산공정", "생산시작일", "생산종료일", "종료조건",
   "환입일", "환입주차", "완성품번", "완성품명", "품번", "품명",
   "ERP불출수량", "현장실물입고", "지시수량", "생산수량", "QC샘플", "기타샘플",
   "단위수량", "원불", "작불", "예상재고", "ERP재고"]

/-- The frame `recalc_return_expectation` returns: `out = df[CSV_COLS]`, so
the column list is `CSV_COLS` on both the empty and the non-empty branch. -/
structure RecalcResult where
  columns : List String
  rows : List OutRow
deriving Repr, DecidableEq

/-- Embeds `recalc_return_expectation` (src/app.py:811-917): empty input returns the
empty frame over `CSV_COLS`; otherwise deduplicate on the key (keep last),
attach the aggregates, and compute 예상재고 per row. -/
def recalc_return_expectation (dfReturn : List ReturnRow) (aggs : Aggregates) :
    RecalcResult :=
  if dfReturn = [] then ⟨CSV_COLS, []⟩
  else ⟨CSV_COLS, (dedupKeepLast dfReturn).map (computeRow aggs)⟩

/-! ## Claim-side helper definitions -/

/-- Written from the spec formula `expected_stock = physical_receipt −
(produced + qc_sample + other_sample) × unit_quantity − material_fault −
process_fault`, each quantity read off the matching aggregate row and counted
as `0` when no row matches (for comparison with the pipeline above). -/
def spec_expected_stock (aggs : Aggregates) (r : ReturnRow) : ℚ :=
  let physicalReceipt :=
    ((aggs.inAgg.find?
      (fun a => a.suju == r.suju && a.jisi == r.jisi && a.part == r.part)).map
        (fun a => a.realIn)).getD 0
  let resM := aggs.resAgg.find? (fun a => a.jisi == r.jisi)
  let produced := (resM.map (fun a => a.prodQty)).getD 0
  let qcSample := (resM.map (fun a => a.qcSample)).getD 0
  let otherSample := (resM.map (fun a => a.etcSample)).getD 0
  let defM := aggs.defAgg.find? (fun a => a.jisi == r.jisi && a.part == r.part)
  let materialFault := (defM.bind (fun a => a.origDef)).getD 0
  let processFault := (defM.bind (fun a => a.procDef)).getD 0
  physicalReceipt - (produced + qcSample + otherSample) * safe_num r.unitQty -
    materialFault - processFault

/-- The `i`-th date window of the escalation sequence. -/
def windowAt (today : ℤ) (i : ℕ) : ℤ × ℤ :=
  (dateWindows today).getD i (0, 0)

/-- The rows the `i`-th window would select. -/
def windowFilter (today : ℤ) (rows : List ℤ) (i : ℕ) : List ℤ :=
  betweenFilter rows (windowAt today i).1 (windowAt today i).2

/-- A return-tracking row carries the key [수주번호, 지시번호, 품번] =
`(s, j, p)`. -/
def returnKeyIs (s j p : String) (r : ReturnRow) : Bool :=
  r.suju == s && r.jisi == j && r.part == p

/-- An output row carries the key [수주번호, 지시번호, 품번] = `(s, j, p)`. -/
def outKeyIs (s j p : String) (r : OutRow) : Bool :=
  r.suju == s && r.jisi == j && r.part == p

/-! ## Theorems -/

/-- The preferred-name loop of `pick_col` returns the first preferred name
present among the columns. -/
theorem firstPreferred_eq_find (cols : List String) :
    ∀ prefs : List String,
      firstPreferred cols prefs = prefs.find? (fun n => decide (n ∈ cols))
  | [] => rfl
  | n :: rest => by
    simp only [firstPreferred, List.find?]
    by_cases hn : n ∈ cols
    · simp [hn]
    · simp [hn, firstPreferred_eq_find cols rest]

/-- C2: `pick_col` returns the first preferred header present among the
dataframe's columns — regardless of the letter — and otherwise falls back to
the column at the letter's 0-based positional index when in range, else
`none`. -/
theorem pick_col_resolution (cols : List String) (letter : String)
    (prefs : List String) :
    ((∃ n ∈ prefs, n ∈ cols) →
      pick_col cols letter prefs = prefs.find? (fun n => decide (n ∈ cols))) ∧
    ((∀ n ∈ prefs, n ∉ cols) →
      pick_col cols letter prefs =
        if 0 ≤ excel_col_to_index letter then
          cols.get? (excel_col_to_index letter).toNat
        else none) := by
  constructor
  · intro hex
    unfold pick_col
    rw [firstPreferred_eq_find]
    cases hfind : prefs.find? (fun n => decide (n ∈ cols)) with
    | some m => rfl
    | none =>
      exfalso
      rw [List.find?_eq_none] at hfind
      obtain ⟨n, hn, hmem⟩ := hex
      exact hfind n hn (by simpa using hmem)
  · intro hall
    unfold pick_col
    rw [firstPreferred_eq_find]
    have hnone : prefs.find? (fun n => decide (n ∈ cols)) = none := by
      rw [List.find?_eq_none]
      intro x hx
      simpa using hall x hx
    rw [hnone]
    by_cases h0 : 0 ≤ excel_col_to_index letter
    · by_cases h1 : excel_col_to_index letter < (cols.length : ℤ)
      · rw [dif_pos ⟨h0, h1⟩, if_pos h0,
          List.get?_eq_get (show (excel_col_to_index letter).toNat < cols.length by omega)]
      · rw [dif_neg (by rintro ⟨_, hlt⟩; exact h1 hlt), if_pos h0]
        symm
        rw [List.get?_eq_none]
        omega
    · rw [dif_neg (by rintro ⟨hge, _⟩; exact h0 hge), if_neg h0]

/-- Witness for C2: with columns `["X", "품번"]` and letter `A` (position 0,
column `"X"`), the preferred name `"품번"` wins; with no preferred names the
positional column `"X"` is returned. -/
theorem pick_col_resolution_witness :
    pick_col ["X", "품번"] "A" ["품번"] = some "품번" ∧
    pick_col ["X", "품번"] "A" [] = some "X" := by
  constructor
  · have h := (pick_col_resolution ["X", "품번"] "A" ["품번"]).1
      ⟨"품번", by simp, by simp⟩
    rw [h]
    decide
  · have h := (pick_col_resolution ["X", "품번"] "A" []).2 (by simp)
    rw [h]
    decide

/-- C3 counterexample: at outer diameter 200, inner diameter 100, height 100
(all strictly positive) the code computes `3.14 × 100 × 7500 × 0.78 =
1836900`, while the claimed formula `π × h × (od² − id²)/4 × 0.78` gives
`585000 × π ≈ 1837831.7`; the two differ because the code uses the
approximation `3.14`, not `π`. -/
theorem est_val_preview_ne_pi_formula :
    (0 : ℚ) < 200 ∧ (0 : ℚ) < 100 ∧
    ((est_val_preview 200 100 100 : ℚ) : ℝ) ≠
      Real.pi * 100 * (((200 : ℝ) ^ 2 - (100 : ℝ) ^ 2) / 4) * 0.78 := by
  have hval : est_val_preview 200 100 100 = 1836900 := by
    norm_num [est_val_preview, pyRound2, roundHalfEven]
  refine ⟨by norm_num, by norm_num, ?_⟩
  rw [hval]
  intro heq
  have hpi : (3.141592 : ℝ) < Real.pi := Real.pi_gt_d6
  push_cast at heq
  nlinarith [hpi]

/-- C3 (amended): for strictly positive outer diameter, inner diameter and
height, the label-tab estimate equals `3.14 × h × (od² − id²)/4 × 0.78` — the
code's decimal approximation of π — rounded half-to-even to two decimal
places, and the save-branch formula computes the same value. -/
theorem est_val_preview_amended (od idm h : ℚ)
    (h1 : 0 < od) (h2 : 0 < idm) (h3 : 0 < h) :
    est_val_preview od idm h =
      pyRound2 (314 / 100 * h * ((od ^ 2 - idm ^ 2) / 4) * (78 / 100)) ∧
    est_val_save od idm h = est_val_preview od idm h := by
  have e1 : (3.14 : ℚ) = 314 / 100 := by norm_num
  have e2 : (0.78 : ℚ) = 78 / 100 := by norm_num
  unfold est_val_preview est_val_save
  rw [if_pos ⟨h1, h2, h3⟩, e1, e2]
  exact ⟨rfl, rfl⟩

/-- Witness for the amended C3 at od=200, id=100, h=100. -/
theorem est_val_preview_amended_witness :
    est_val_preview 200 100 100 =
      pyRound2 (314 / 100 * 100 * (((200 : ℚ) ^ 2 - (100 : ℚ) ^ 2) / 4) * (78 / 100)) :=
  (est_val_preview_amended 200 100 100 (by norm_num) (by norm_num) (by norm_num)).1

/-- C4: whenever the outer diameter, inner diameter or height is ≤ 0, the
label weight estimate stays at its initial value 0. -/
theorem est_val_preview_zero_on_nonpos (od idm h : ℚ)
    (hn : od ≤ 0 ∨ idm ≤ 0 ∨ h ≤ 0) : est_val_preview od idm h = 0 := by
  unfold est_val_preview
  rw [if_neg]
  rintro ⟨h1, h2, h3⟩
  rcases hn with hh | hh | hh <;> linarith

/-- Witness for C4 at od=0, id=50, h=30. -/
theorem est_val_preview_zero_on_nonpos_witness :
    ((0 : ℚ) ≤ 0 ∨ (50 : ℚ) ≤ 0 ∨ (30 : ℚ) ≤ 0) ∧ est_val_preview 0 50 30 = 0 :=
  ⟨Or.inl le_rfl, est_val_preview_zero_on_nonpos 0 50 30 (Or.inl le_rfl)⟩

/-- C10: `safe_num` is total over cell values — NaN-like values map to 0,
ints and floats to their numeric value, strings are parsed after removing
commas (so `"1,234"` gives 1234), and any string the float parser rejects
maps to 0. -/
theorem safe_num_total_spec :
    safe_num Value.nan = 0 ∧
    (∀ n : ℤ, safe_num (Value.int n) = (n : ℚ)) ∧
    (∀ q : ℚ, safe_num (Value.float q) = q) ∧
    safe_num (Value.str "1,234") = 1234 ∧
    (∀ s : String, pyFloat? (removeCommas s) = none → safe_num (Value.str s) = 0) := by
  refine ⟨rfl, fun n => rfl, fun q => rfl, ?_, ?_⟩
  · have h : pyFloatParse (removeCommas "1,234") = some (1, 1234, 0, 0) := by decide
    simp [safe_num, pyFloat?, h]
  · intro s hs
    simp [safe_num, hs]

/-- Witness for C10 at the unparseable string `"n/a"`. -/
theorem safe_num_total_spec_witness :
    pyFloat? (removeCommas "n/a") = none ∧ safe_num (Value.str "n/a") = 0 := by
  have hp : pyFloatParse (removeCommas "n/a") = none := by decide
  have h : pyFloat? (removeCommas "n/a") = none := by simp [pyFloat?, hp]
  exact ⟨h, safe_num_total_spec.2.2.2.2 "n/a" h⟩

/-- C8: for each of the three S3 loaders, a `ClientError` with code
`NoSuchKey` or `404` yields the loader's empty value with no error message,
while any other `ClientError` code yields the empty value after surfacing
exactly one error message; no error escapes the loader. -/
theorem s3_loaders_notfound_vs_error (α : Type) (code : String) :
    ((code = "NoSuchKey" ∨ code = "404") →
      load_file_from_s3 (S3Result.clientError code : S3Result α) = ⟨none, []⟩ ∧
      load_db_from_s3 (S3Result.clientError code : S3Result α) = ⟨none, []⟩ ∧
      load_label_db_from_s3 (fun _ => ([] : List α)) (S3Result.clientError code) =
        ⟨[], []⟩) ∧
    (code ≠ "NoSuchKey" → code ≠ "404" →
      (load_file_from_s3 (S3Result.clientError code : S3Result α)).value = none ∧
      (load_file_from_s3 (S3Result.clientError code : S3Result α)).errors.length = 1 ∧
      (load_db_from_s3 (S3Result.clientError code : S3Result α)).value = none ∧
      (load_db_from_s3 (S3Result.clientError code : S3Result α)).errors.length = 1 ∧
      (load_label_db_from_s3 (fun _ => ([] : List α))
        (S3Result.clientError code)).value = [] ∧
      (load_label_db_from_s3 (fun _ => ([] : List α))
        (S3Result.clientError code)).errors.length = 1) := by
  constructor
  · intro h
    refine ⟨?_, ?_, ?_⟩ <;>
      simp [load_file_from_s3, load_db_from_s3, load_label_db_from_s3, h]
  · intro h1 h2
    have h : ¬(code = "NoSuchKey" ∨ code = "404") := by tauto
    refine ⟨?_, ?_, ?_, ?_, ?_, ?_⟩ <;>
      simp [load_file_from_s3, load_db_from_s3, load_label_db_from_s3, h1, h2]

/-- Witness for C8: `NoSuchKey` is silent, `AccessDenied` surfaces one
message. -/
theorem s3_loaders_notfound_vs_error_witness :
    load_file_from_s3 (S3Result.clientError "NoSuchKey" : S3Result Unit) =
      ⟨none, []⟩ ∧
    (load_db_from_s3 (S3Result.clientError "AccessDenied" : S3Result Unit)).errors.length = 1 :=
  ⟨((s3_loaders_notfound_vs_error Unit "NoSuchKey").1 (Or.inl rfl)).1,
   ((s3_loaders_notfound_vs_error Unit "AccessDenied").2 (by decide) (by decide)).2.2.2.1⟩

/-- C6: the ERP재고 figure of every part is the sum of 실재고수량 over
exactly the inventory rows whose 작업장 is one of WC501–WC504; a row from any
other workstation contributes nothing. -/
theorem erp_stock_four_workstations (rows : List StockRow) (part : String) :
    erpStockOf rows part =
      ((rows.filter (fun r =>
        decide (r.workstation ∈ erpWorkstations ∧ r.part = part))).map
          (fun r => r.qty)).sum ∧
    (∀ r : StockRow, r.workstation ∉ erpWorkstations →
      erpStockOf (r :: rows) part = erpStockOf rows part) := by
  constructor
  · unfold erpStockOf stockFiltered
    rw [List.filter_filter]
    have he : (fun (a : StockRow) =>
        decide (a.part = part) && decide (a.workstation ∈ erpWorkstations)) =
        (fun r => decide (r.workstation ∈ erpWorkstations ∧ r.part = part)) := by
      funext r
      by_cases h1 : r.part = part <;>
        by_cases h2 : r.workstation ∈ erpWorkstations <;> simp [h1, h2]
    rw [he]
  · intro r hr
    unfold erpStockOf stockFiltered
    rw [List.filter_cons]
    simp [hr]

/-- Witness for C6: a row from workstation WC505 leaves ERP재고 unchanged. -/
theorem erp_stock_four_workstations_witness :
    erpStockOf [⟨"WC505", "P1", 7⟩] "P1" = erpStockOf [] "P1" :=
  (erp_stock_four_workstations [] "P1").2 ⟨"WC505", "P1", 7⟩ (by decide)

/-- C7: the 원불 total of every (work-order, part) pair sums 불량수량 over
exactly the defect rows of that pair whose type string starts with `(원)`,
작불 over those starting with `(작)`, and a row starting with neither prefix
contributes to neither total. -/
theorem defect_prefix_split (rows : List DefectRow) (jisi part : String) :
    origDefectOf rows jisi part =
      ((rows.filter (fun r =>
        strStarts r.dtype "(원)" && decide (r.jisi = jisi ∧ r.part = part))).map
          (fun r => r.qty)).sum ∧
    procDefectOf rows jisi part =
      ((rows.filter (fun r =>
        strStarts r.dtype "(작)" && decide (r.jisi = jisi ∧ r.part = part))).map
          (fun r => r.qty)).sum ∧
    (∀ r : DefectRow, strStarts r.dtype "(원)" = false →
      strStarts r.dtype "(작)" = false →
      origDefectOf (r :: rows) jisi part = origDefectOf rows jisi part ∧
      procDefectOf (r :: rows) jisi part = procDefectOf rows jisi part) := by
  refine ⟨?_, ?_, ?_⟩
  · unfold origDefectOf defectOrigRows
    rw [List.filter_filter]
    have he : (fun (a : DefectRow) =>
        decide (a.jisi = jisi ∧ a.part = part) && strStarts a.dtype "(원)") =
        (fun r => strStarts r.dtype "(원)" && decide (r.jisi = jisi ∧ r.part = part)) := by
      funext r
      rw [Bool.and_comm]
    rw [he]
  · unfold procDefectOf defectProcRows
    rw [List.filter_filter]
    have he : (fun (a : DefectRow) =>
        decide (a.jisi = jisi ∧ a.part = part) && strStarts a.dtype "(작)") =
        (fun r => strStarts r.dtype "(작)" && decide (r.jisi = jisi ∧ r.part = part)) := by
      funext r
      rw [Bool.and_comm]
    rw [he]
  · intro r h1 h2
    constructor
    · unfold origDefectOf defectOrigRows
      rw [List.filter_cons]
      simp [h1]
    · unfold procDefectOf defectProcRows
      rw [List.filter_cons]
      simp [h2]

/-- Witness for C7: a defect row typed `(혼)이물` counts toward neither 원불
nor 작불. -/
theorem defect_prefix_split_witness :
    origDefectOf [⟨"WO1", "P1", 4, "(혼)이물"⟩] "WO1" "P1" =
      origDefectOf [] "WO1" "P1" ∧
    procDefectOf [⟨"WO1", "P1", 4, "(혼)이물"⟩] "WO1" "P1" =
      procDefectOf [] "WO1" "P1" :=
  (defect_prefix_split [] "WO1" "P1").2.2 ⟨"WO1", "P1", 4, "(혼)이물"⟩
    (by decide) (by decide)

/-- C5: the part-to-order search displays the filtered rows of the first
non-empty window in the fixed sequence [today, +30d], [today, +365d],
[−90d, today], [−180d, today], [−365d, today] — a window is used only when
every narrower window selected zero rows — and shows nothing when all five
windows are empty. -/
theorem search_windows_escalation (today : ℤ) (rows : List ℤ) :
    (∀ i : ℕ, i < 5 → windowFilter today rows i ≠ [] →
      (∀ j : ℕ, j < i → windowFilter today rows j = []) →
      searchByWindows today rows = windowFilter today rows i) ∧
    ((∀ i : ℕ, i < 5 → windowFilter today rows i = []) →
      searchByWindows today rows = []) := by
  have w0 : windowFilter today rows 0 = betweenFilter rows today (today + 30) := rfl
  have w1 : windowFilter today rows 1 = betweenFilter rows today (today + 365) := rfl
  have w2 : windowFilter today rows 2 = betweenFilter rows (today - 90) today := rfl
  have w3 : windowFilter today rows 3 = betweenFilter rows (today - 180) today := rfl
  have w4 : windowFilter today rows 4 = betweenFilter rows (today - 365) today := rfl
  constructor
  · intro i hi hne hprev
    interval_cases i
    · rw [w0] at hne
      simp only [searchByWindows, if_pos hne, w0]
    · have h0 := hprev 0 (by norm_num)
      rw [w0] at h0
      rw [w1] at hne
      simp only [searchByWindows, h0, ne_eq, not_true_eq_false, if_false,
        if_pos hne, w1]
    · have h0 := hprev 0 (by norm_num)
      have h1 := hprev 1 (by norm_num)
      rw [w0] at h0
      rw [w1] at h1
      rw [w2] at hne
      simp only [searchByWindows, h0, h1, ne_eq, not_true_eq_false, if_false,
        if_pos hne, w2]
    · have h0 := hprev 0 (by norm_num)
      have h1 := hprev 1 (by norm_num)
      have h2 := hprev 2 (by norm_num)
      rw [w0] at h0
      rw [w1] at h1
      rw [w2] at h2
      rw [w3] at hne
      simp only [searchByWindows, h0, h1, h2, ne_eq, not_true_eq_false,
        if_false, if_pos hne, w3]
    · have h0 := hprev 0 (by norm_num)
      have h1 := hprev 1 (by norm_num)
      have h2 := hprev 2 (by norm_num)
      have h3 := hprev 3 (by norm_num)
      rw [w0] at h0
      rw [w1] at h1
      rw [w2] at h2
      rw [w3] at h3
      rw [w4] at hne
      simp only [searchByWindows, h0, h1, h2, h3, ne_eq, not_true_eq_false,
        if_false, if_pos hne, w4]
  · intro hall
    have h0 := hall 0 (by norm_num)
    have h1 := hall 1 (by norm_num)
    have h2 := hall 2 (by norm_num)
    have h3 := hall 3 (by norm_num)
    have h4 := hall 4 (by norm_num)
    rw [w0] at h0
    rw [w1] at h1
    rw [w2] at h2
    rw [w3] at h3
    rw [w4] at h4
    simp only [searchByWindows, h0, h1, h2, h3, h4, ne_eq, not_true_eq_false,
      if_false]

/-- Witness for C5: with today = 0 and one row due on day 100, the 30-day
window is empty and the 365-day window is chosen. -/
theorem search_windows_escalation_witness :
    searchByWindows 0 [100] = windowFilter 0 [100] 1 :=
  (search_windows_escalation 0 [100]).1 1 (by norm_num) (by decide)
    (fun j hj => by interval_cases j; decide)

/-- C1: every output row of the reconciliation carries 예상재고 =
현장실물입고 − (생산수량 + QC샘플 + 기타샘플) × 단위수량 − 원불 − 작불, with
each aggregate value counted as 0 when no aggregate row matches the key; at
the spec's numbers (receipt 100, produced 10, qc 2, other 1, unit 5, material
fault 3, process fault 2) the result is 30. -/
theorem recalc_expected_stock_formula :
    (∀ (dfReturn : List ReturnRow) (aggs : Aggregates),
      (recalc_return_expectation dfReturn aggs).rows.map (fun r => r.expectedStock) =
        (dedupKeepLast dfReturn).map (spec_expected_stock aggs)) ∧
    (recalc_return_expectation
        [⟨"SO1", "WO1", "P1", Value.float 5, "충진"⟩]
        ⟨[⟨"SO1", "WO1", "P1", 100, 100⟩], [], [⟨"WO1", 10, 2, 1⟩],
         [⟨"WO1", "P1", some 3, some 2⟩], []⟩).rows.map
          (fun r => r.expectedStock) = [30] := by
  constructor
  · intro dfReturn aggs
    unfold recalc_return_expectation
    by_cases hd : dfReturn = []
    · subst hd
      simp [dedupKeepLast]
    · rw [if_neg hd]
      show ((dedupKeepLast dfReturn).map (computeRow aggs)).map
        (fun r => r.expectedStock) = _
      rw [List.map_map]
      rfl
  · norm_num [recalc_return_expectation, dedupKeepLast, computeRow, safe_num]

/-- Rows surviving the keep-last deduplication come from the input list. -/
theorem mem_of_mem_dedupKeepLast {x : ReturnRow} :
    ∀ {l : List ReturnRow}, x ∈ dedupKeepLast l → x ∈ l := by
  intro l
  induction l with
  | nil => intro h; simp [dedupKeepLast] at h
  | cons r rest ih =>
    intro hx
    unfold dedupKeepLast at hx
    by_cases h : rest.any (fun s => decide (sameKey r s)) = true
    · rw [if_pos h] at hx
      exact List.mem_cons_of_mem _ (ih hx)
    · rw [if_neg h] at hx
      rcases List.mem_cons.mp hx with h1 | h1
      · exact h1 ▸ List.mem_cons_self r rest
      · exact List.mem_cons_of_mem _ (ih h1)

/-- Unfolding of the row-key predicate. -/
theorem returnKeyIs_iff (s j p : String) (r : ReturnRow) :
    returnKeyIs s j p r = true ↔ r.suju = s ∧ r.jisi = j ∧ r.part = p := by
  simp [returnKeyIs, and_assoc]

/-- Filtering the keep-last deduplication by one key leaves exactly the last
input row of that key (nothing when the key does not occur). -/
theorem dedup_filter_key (s j p : String) :
    ∀ l : List ReturnRow,
      (dedupKeepLast l).filter (returnKeyIs s j p) =
        ((l.filter (returnKeyIs s j p)).getLast?).toList := by
  intro l
  induction l with
  | nil => rfl
  | cons r rest ih =>
    unfold dedupKeepLast
    by_cases hany : rest.any (fun x => decide (sameKey r x)) = true
    · rw [if_pos hany]
      by_cases hk : returnKeyIs s j p r = true
      · rw [List.any_eq_true] at hany
        obtain ⟨x, hxmem, hx⟩ := hany
        have hsk : sameKey r x := of_decide_eq_true hx
        have hrk := (returnKeyIs_iff s j p r).mp hk
        have hxk : returnKeyIs s j p x = true := by
          rw [returnKeyIs_iff]
          exact ⟨hsk.1.symm.trans hrk.1, hsk.2.1.symm.trans hrk.2.1,
            hsk.2.2.symm.trans hrk.2.2⟩
        have hne : rest.filter (returnKeyIs s j p) ≠ [] := by
          intro hc
          rw [List.filter_eq_nil_iff] at hc
          exact hc x hxmem hxk
        rw [ih, List.filter_cons, if_pos hk]
        obtain ⟨y, ys, hys⟩ := List.exists_cons_of_ne_nil hne
        rw [hys, List.getLast?_cons_cons]
      · rw [ih, List.filter_cons, if_neg hk]
    · rw [if_neg hany]
      by_cases hk : returnKeyIs s j p r = true
      · have hrest : rest.filter (returnKeyIs s j p) = [] := by
          rw [List.filter_eq_nil_iff]
          intro a ha hak
          apply hany
          rw [List.any_eq_true]
          refine ⟨a, ha, ?_⟩
          apply decide_eq_true
          have hrk := (returnKeyIs_iff s j p r).mp hk
          have hak2 := (returnKeyIs_iff s j p a).mp hak
          exact ⟨hrk.1.trans hak2.1.symm, hrk.2.1.trans hak2.2.1.symm,
            hrk.2.2.trans hak2.2.2.symm⟩
        have hdrest : (dedupKeepLast rest).filter (returnKeyIs s j p) = [] := by
          rw [ih, hrest]
          rfl
        simp [List.filter_cons, hk, hrest, hdrest]
      · simp [List.filter_cons, hk, ih]

/-- C9: the reconciliation output has at most one row per [수주번호, 지시번호,
품번] key; the row it keeps for a key is computed from the last input row
carrying that key; and an empty input yields the empty frame over the full
`CSV_COLS` column set. -/
theorem recalc_dedup_and_empty (dfReturn : List ReturnRow) (aggs : Aggregates)
    (s j p : String) :
    ((recalc_return_expectation dfReturn aggs).rows.filter (outKeyIs s j p)).length ≤ 1 ∧
    ((recalc_return_expectation dfReturn aggs).rows.filter (outKeyIs s j p) =
      ((dfReturn.filter (returnKeyIs s j p)).getLast?.toList).map (computeRow aggs)) ∧
    recalc_return_expectation [] aggs = ⟨CSV_COLS, []⟩ := by
  have hmain : (recalc_return_expectation dfReturn aggs).rows.filter (outKeyIs s j p) =
      ((dfReturn.filter (returnKeyIs s j p)).getLast?.toList).map (computeRow aggs) := by
    unfold recalc_return_expectation
    by_cases hd : dfReturn = []
    · subst hd
      rfl
    · rw [if_neg hd]
      show ((dedupKeepLast dfReturn).map (computeRow aggs)).filter (outKeyIs s j p) = _
      rw [List.filter_map]
      have hcomp : (outKeyIs s j p) ∘ (computeRow aggs) = returnKeyIs s j p := by
        funext r
        rfl
      rw [hcomp, dedup_filter_key]
  refine ⟨?_, hmain, rfl⟩
  rw [hmain]
  cases hgl : (dfReturn.filter (returnKeyIs s j p)).getLast? <;> simp [hgl]
